import Mathlib

/-!
Shallow embedding of the AI-Ish native inference bridge
(`app/src/main/cpp/llm_bridge.cpp`, `whisper_bridge.cpp`, `npu_delegate.cpp`,
`gpu_backend.cpp`) and proofs about its session lifecycle, error handling and
capability detection.

The llama.cpp / whisper.cpp engines themselves are outside this repository;
their calls (`llama_model_load_from_file`, `llama_init_from_model`,
`llama_decode`, `llama_sampler_sample`, `llama_tokenize`, `whisper_full`) are
modelled as oracle parameters: the bridge code under verification only
branches on their results, so every branch of the bridge is represented
faithfully while the engine behaviour stays abstract.
-/

/-- Uninterpreted 32-bit float value (jfloat) passed through the JNI layer.
The bridge performs no arithmetic on jfloat parameters; it only forwards them
to llama.cpp sampler constructors, so the carrier is an opaque bit pattern. -/
structure FVal where
  bits : Nat
  deriving DecidableEq, Repr

/-- A loaded llama model (`llama_model*`), identified by the id the
environment (llama.cpp loader) assigned at load time. -/
structure LlamaModel where
  id : Nat
  deriving DecidableEq, Repr

/-- A llama execution context (`llama_context*`): records which model it was
created from (`llama_init_from_model(g_model, ...)`) and the requested
`ctx_params.n_ctx`. -/
structure LlamaContext where
  modelId : Nat
  nCtx : Nat
  deriving DecidableEq, Repr

/-- One stage of a llama sampler chain, as pushed by
`llama_sampler_chain_add` in `nativeGenerate`. -/
inductive SamplerStage where
  | topP (p : FVal) (minKeep : Nat)
  | temp (t : FVal)
  | dist (seed : Nat)
  deriving DecidableEq, Repr

/-- A sampler chain (`llama_sampler*` built by `llama_sampler_chain_init` and
`llama_sampler_chain_add`): the list of stages in the order they were added,
which is the order llama.cpp applies them. A freshly initialized chain is
`⟨[]⟩`. -/
structure SamplerChain where
  stages : List SamplerStage
  deriving DecidableEq, Repr

/-- `LLAMA_DEFAULT_SEED` from llama.h (0xFFFFFFFF), the seed passed to
`llama_sampler_init_dist` in `nativeGenerate`. -/
def LLAMA_DEFAULT_SEED : Nat := 4294967295

/-- The mutable globals of `llm_bridge.cpp`: `g_model`, `g_context`,
`g_sampler` (the language-model workload's registry slot triple) and
`g_backend_initialized`. -/
structure LlmState where
  model : Option LlamaModel
  context : Option LlamaContext
  sampler : Option SamplerChain
  backendInitialized : Bool
  deriving DecidableEq, Repr

/-- The three registry resources of the language-model workload, used to
record the order of `llama_sampler_free` / `llama_free` / `llama_model_free`
calls an operation performs. -/
inductive Resource where
  | sampler
  | context
  | model
  deriving DecidableEq, Repr

/-- The teardown order used by `nativeFree` (llm_bridge.cpp:372-385):
sampler, then context, then model. -/
def teardownOrder : List Resource := [Resource.sampler, Resource.context, Resource.model]

/-- Whether a registry slot of the given state holds a resource. -/
def occupied (st : LlmState) : Resource → Bool
  | Resource.sampler => st.sampler.isSome
  | Resource.context => st.context.isSome
  | Resource.model => st.model.isSome

/-- `nativeLoadModel` (llm_bridge.cpp:94-139). Under `g_model_mutex`:
initializes the backend, frees the existing `g_model` if any (and nothing
else), then assigns `g_model = llama_model_load_from_file(path, params)` and
returns 0 on success, -1 when the loader returned null. `loader` stands for
`llama_model_load_from_file`; `contextSize` and `gpuLayers` are the JNI
arguments (the former is unused by the C++ function, the latter only
parametrizes the loader call). Returns (result, new globals, ordered list of
registry resources freed). -/
def nativeLoadModel (st : LlmState) (path : String) (_contextSize _gpuLayers : Int)
    (loader : String → Option LlamaModel) : Int × LlmState × List Resource :=
  let st0 := { st with backendInitialized := true }
  let fs := if st0.model.isSome then [Resource.model] else []
  let st1 := { st0 with model := none }
  let loaded := loader path
  let st2 := { st1 with model := loaded }
  match loaded with
  | none => (-1, st2, fs)
  | some _ => (0, st2, fs)

/-- `nativeInitContext` (llm_bridge.cpp:145-191). Under `g_model_mutex`:
returns -1 if `g_model` is null; otherwise frees the existing `g_context` if
any, creates a context from the current model with `n_ctx = contextSize`
(`ctxOk` stands for `llama_init_from_model` succeeding); on creation failure
returns -1 with the context slot left empty (the old sampler is not
touched); on success frees the existing `g_sampler` if any, installs a fresh
empty sampler chain, and returns 0. -/
def nativeInitContext (st : LlmState) (contextSize : Nat) (ctxOk : Bool) :
    Int × LlmState × List Resource :=
  match st.model with
  | none => (-1, st, [])
  | some m =>
    let fs1 := if st.context.isSome then [Resource.context] else []
    let st1 := { st with context := none }
    if ctxOk then
      let ctx : LlamaContext := { modelId := m.id, nCtx := contextSize }
      let fs2 := if st1.sampler.isSome then [Resource.sampler] else []
      let st2 := { st1 with context := some ctx, sampler := some ⟨[]⟩ }
      (0, st2, fs1 ++ fs2)
    else
      (-1, st1, fs1)

/-- `llama_tokenize` as documented by llama.cpp and relied on at
llm_bridge.cpp:217-231: given the true tokenization `tok text` of the input,
it fills the buffer and returns the token count when it fits in `maxTokens`,
and returns the negated required count (writing nothing usable) when the
buffer is too small. -/
def llamaTokenize (tok : String → List Int) (text : String) (maxTokens : Nat) :
    Int × List Int :=
  let ts := tok text
  if ts.length > maxTokens then (-(ts.length : Int), [])
  else ((ts.length : Int), ts)

/-- `nativeTokenize` (llm_bridge.cpp:197-243). Without taking the mutex:
returns -1 if `g_model` is null; otherwise calls `llama_tokenize` with the
Java array length as capacity; if that returned a negative count it is
returned as-is (buffer too small, carrying the required count); otherwise
the tokens are copied to the output array and the count returned. `tok` is
the model tokenizer oracle (including the BOS token added by
`add_special = true`). Returns (result, tokens copied out). -/
def nativeTokenize (st : LlmState) (tok : String → List Int) (text : String)
    (capacity : Nat) : Int × List Int :=
  match st.model with
  | none => (-1, [])
  | some _ =>
    let r := llamaTokenize tok text capacity
    if r.1 < 0 then (r.1, [])
    else (r.1, r.2)

/-- `nativeGenerate` (llm_bridge.cpp:249-303). Without taking the mutex:
returns -1 if `g_context` is null; runs `llama_decode` on the input batch
(`decodeOk` stands for its result being 0) and returns -2 on decode failure
without sampling; otherwise frees any existing `g_sampler` (the transient
empty chain created when `g_sampler` was null is created and freed inside
the call and never becomes a registry occupant), installs a fresh chain
[top_p(topP, 1), temp(temperature), dist(LLAMA_DEFAULT_SEED)] and returns
`llama_sampler_sample(g_sampler, g_context, -1)`, modelled by the oracle
`sample`. -/
def nativeGenerate (st : LlmState) (_tokens : List Int) (temperature topP : FVal)
    (decodeOk : Bool) (sample : SamplerChain → LlamaContext → Int) :
    Int × LlmState × List Resource :=
  match st.context with
  | none => (-1, st, [])
  | some ctx =>
    if decodeOk then
      let fs := if st.sampler.isSome then [Resource.sampler] else []
      let chain : SamplerChain :=
        ⟨[SamplerStage.topP topP 1, SamplerStage.temp temperature,
          SamplerStage.dist LLAMA_DEFAULT_SEED]⟩
      (sample chain ctx, { st with sampler := some chain }, fs)
    else
      (-2, st, [])

/-- `nativeFree` (llm_bridge.cpp:363-388). Under `g_model_mutex`: frees
`g_sampler`, then `g_context`, then `g_model`, each only if non-null, and
nulls all three. Never fails and returns nothing. Returns (new globals,
ordered list of registry resources freed). -/
def nativeFree (st : LlmState) : LlmState × List Resource :=
  let fs := (if st.sampler.isSome then [Resource.sampler] else [])
         ++ (if st.context.isSome then [Resource.context] else [])
         ++ (if st.model.isSome then [Resource.model] else [])
  ({ st with model := none, context := none, sampler := none }, fs)

/-- The JNI entry points of `llm_bridge.cpp` that operate on the
language-model registry triple. -/
inductive LlmOp where
  | loadModel
  | initContext
  | tokenize
  | generate
  | decodeToken
  | isEOS
  | free
  | getVocabSize
  deriving DecidableEq, Repr

/-- Whether the JNI entry point acquires `g_model_mutex`, i.e. whether its
body contains `std::lock_guard<std::mutex> lock(g_model_mutex)`:
`nativeLoadModel` (line 102), `nativeInitContext` (line 151) and
`nativeFree` (line 368) do; `nativeTokenize`, `nativeGenerate`,
`nativeDecode`, `nativeIsEOS` and `nativeGetVocabSize` do not. -/
def acquiresModelMutex : LlmOp → Bool
  | LlmOp.loadModel => true
  | LlmOp.initContext => true
  | LlmOp.tokenize => false
  | LlmOp.generate => false
  | LlmOp.decodeToken => false
  | LlmOp.isEOS => false
  | LlmOp.free => true
  | LlmOp.getVocabSize => false

/-- Whether the JNI entry point reads or mutates one of the registry globals
`g_model` / `g_context` / `g_sampler`: `nativeLoadModel` frees and writes
`g_model`; `nativeInitContext` reads `g_model` and writes `g_context` and
`g_sampler`; `nativeTokenize`, `nativeDecode`, `nativeIsEOS` and
`nativeGetVocabSize` read `g_model`; `nativeGenerate` reads `g_context` and
frees and writes `g_sampler`; `nativeFree` frees and writes all three. -/
def touchesRegistry : LlmOp → Bool
  | LlmOp.loadModel => true
  | LlmOp.initContext => true
  | LlmOp.tokenize => true
  | LlmOp.generate => true
  | LlmOp.decodeToken => true
  | LlmOp.isEOS => true
  | LlmOp.free => true
  | LlmOp.getVocabSize => true

/-- Does `needle` occur at the head of `hay` (character-wise comparison used
to model one candidate position of `std::string::find`). -/
def charsLeadEq : List Char → List Char → Bool
  | [], _ => true
  | _ :: _, [] => false
  | a :: as, b :: bs => a == b && charsLeadEq as bs

/-- Does `needle` occur anywhere in the character list (all candidate
positions of `std::string::find`). -/
def charsFind (needle : List Char) : List Char → Bool
  | [] => needle.isEmpty
  | c :: rest => charsLeadEq needle (c :: rest) || charsFind needle rest

/-- `hay.find(needle) != std::string::npos` on C++ strings. -/
def strFind (hay needle : String) : Bool :=
  charsFind needle.toList hay.toList

/-- C++ `std::stoi`: skips leading whitespace, reads an optional sign and a
nonempty digit run; `none` models the `std::invalid_argument` it throws when
no digit can be parsed. (`std::out_of_range` is not modelled; the values
probed here are small.) -/
def stoiCpp (s : String) : Option Int :=
  let cs := s.toList.dropWhile (fun c => c.isWhitespace)
  let signed : Int × List Char :=
    match cs with
    | '-' :: rest => (-1, rest)
    | '+' :: rest => (1, rest)
    | _ => (1, cs)
  let digits := signed.2.takeWhile (fun c => c.isDigit)
  if digits.isEmpty then none
  else
    let n : Nat := digits.foldl (fun acc c => acc * 10 + (c.toNat - 48)) 0
    some (signed.1 * (n : Int))

/-- Outcome of a native capability probe: a normal return with a boolean, or
a C++ exception escaping the function (which, uncaught in a JNI call, aborts
the process). -/
inductive DetectOutcome where
  | ok (hasNPU : Bool)
  | thrown
  deriving DecidableEq, Repr

/-- `checkNNAPISupport` (npu_delegate.cpp:60-108). `props` maps an Android
system property name to its string value ("" when unset, which is what
`__system_property_get` yields). The code guards `std::stoi` only against
the empty string (`sdkVersion.empty() ? "0" : sdkVersion`, line 63); a
non-empty non-numeric value reaches `std::stoi`, whose throw is modelled as
`DetectOutcome.thrown`. Below API 27 the probe returns false; otherwise it
scans `ro.hardware` / `ro.board.platform` for known SoC substrings. -/
def checkNNAPISupport (props : String → String) : DetectOutcome :=
  let sdkVersion := props "ro.build.version.sdk"
  match stoiCpp (if sdkVersion.isEmpty then "0" else sdkVersion) with
  | none => DetectOutcome.thrown
  | some sdk =>
    if sdk < 27 then DetectOutcome.ok false
    else
      let hardware := props "ro.hardware"
      let soc := props "ro.board.platform"
      let hasNPU :=
        (strFind soc "pineapple" || strFind soc "kalama" ||
         strFind soc "taro" || strFind soc "qcom")
        || (strFind hardware "exynos" || strFind soc "exynos")
        || (strFind soc "mt68" || strFind soc "mt69")
        || (strFind hardware "tensor" || strFind soc "tensor")
      DetectOutcome.ok hasNPU

/-- `detect_gpu_info` (gpu_backend.cpp:116-154): builds a descriptive string
from `ro.hardware` and `ro.product.board` plus substring matches for known
SoCs, falling back to "Unknown GPU" when nothing matched. (The
`ro.hardware.vulkan` / `ro.hardware.egl` reads at lines 118-119 are dead:
their results are never used.) Total by construction: no parse is attempted
on any property value. -/
def detect_gpu_info (props : String → String) : String :=
  let soc := props "ro.hardware"
  let board := props "ro.product.board"
  let g0 := if soc.isEmpty then "" else "SoC: " ++ soc
  let g1 :=
    if board.isEmpty then g0
    else (if g0.isEmpty then g0 else g0 ++ " | ") ++ "Board: " ++ board
  let g2 :=
    if strFind soc "qcom" || strFind soc "kalama" || strFind soc "pineapple" then
      (if g1.isEmpty then g1 else g1 ++ " | ") ++ "GPU: Qualcomm Adreno"
    else if strFind soc "exynos" then
      (if g1.isEmpty then g1 else g1 ++ " | ") ++ "GPU: ARM Mali"
    else if strFind soc "mt" then
      (if g1.isEmpty then g1 else g1 ++ " | ") ++ "GPU: PowerVR/Mali"
    else g1
  if g2.isEmpty then "Unknown GPU" else g2

/-- One transcription segment as exposed by
`whisper_full_get_segment_text` / `_t0` / `_t1`. -/
structure WhisperSegment where
  text : String
  t0 : Int
  t1 : Int
  deriving DecidableEq, Repr

/-- The mutable globals of `whisper_bridge.cpp`: `g_whisper_ctx`,
`g_detected_language`, `g_whisper_initialized`. -/
structure WhisperState where
  ctx : Option Nat
  detectedLanguage : String
  initialized : Bool
  deriving DecidableEq, Repr

/-- Outcome of `nativeTranscribe`, by source branch: model-not-loaded check
(whisper_bridge.cpp:168-171), `whisper_full` failure (lines 188-191), or the
concatenated segment text. -/
inductive TranscribeOutcome where
  | noModelLoaded
  | transcriptionError
  | ok (text : String)
  deriving DecidableEq, Repr

/-- Text of one segment as accumulated at whisper_bridge.cpp:198-215: an
optional timestamp piece followed by the segment text. `fmt` stands for the
`snprintf("[%.2f -> %.2f] ", t0/100.0f, t1/100.0f)` formatting of the two
centisecond values (floating-point formatting kept abstract). -/
def segmentText (fmt : Int → Int → String) (enableTs : Bool) (s : WhisperSegment) : String :=
  (if enableTs then fmt s.t0 s.t1 else "") ++ s.text

/-- The transcription string built by the loop at whisper_bridge.cpp:198-220:
segment texts joined with a single space between consecutive segments. -/
def joinSegments (fmt : Int → Int → String) (enableTs : Bool) :
    List WhisperSegment → String
  | [] => ""
  | [s] => segmentText fmt enableTs s
  | s :: rest => segmentText fmt enableTs s ++ " " ++ joinSegments fmt enableTs rest

/-- `nativeTranscribe` (whisper_bridge.cpp:158-224). Under
`g_whisper_mutex`: the not-loaded branch fires when `g_whisper_ctx` is null;
otherwise `whisper_full` runs (its return code is `fullResult`, the segments
it produced are `segments`); a nonzero code takes the error branch without
reading any segment; success returns the joined segment text. -/
def nativeTranscribe (st : WhisperState) (enableTs : Bool)
    (fullResult : Int) (segments : List WhisperSegment)
    (fmt : Int → Int → String) : TranscribeOutcome :=
  match st.ctx with
  | none => TranscribeOutcome.noModelLoaded
  | some _ =>
    if fullResult ≠ 0 then TranscribeOutcome.transcriptionError
    else TranscribeOutcome.ok (joinSegments fmt enableTs segments)

/-- The jstring `nativeTranscribe` actually returns to Java: both failure
branches return `env->NewStringUTF("")`. -/
def transcribeResultString : TranscribeOutcome → String
  | TranscribeOutcome.noModelLoaded => ""
  | TranscribeOutcome.transcriptionError => ""
  | TranscribeOutcome.ok t => t

/-- A llama.cpp loader environment with two distinct loadable model files
and failure on every other path. -/
def loaderTwo : String → Option LlamaModel :=
  fun p =>
    if p = "/models/a.gguf" then some ⟨1⟩
    else if p = "/models/b.gguf" then some ⟨2⟩
    else none

/-- Registry state after `nativeLoadModel("/models/a.gguf")` followed by
`nativeInitContext(4096)` on an initially empty registry: model 1, a context
created from model 1, and a fresh sampler chain are installed (the Ready
state of the language-model workload). -/
def stReadyA : LlmState :=
  (nativeInitContext
    (nativeLoadModel ⟨none, none, none, false⟩ "/models/a.gguf" 4096 0 loaderTwo).2.1
    4096 true).2.1

/-- C1: the claim says a `load_model` call on a kind that already has a
model, context and sampler installed tears down all three (sampler, then
context, then model) before installing the new model, so nothing from the
first load remains reachable. Evaluating the code on that failing input
shows otherwise: starting from the Ready state of a first load, a second
successful `nativeLoadModel` with a different path frees only the model
slot, and the context and sampler created by the first load are still
installed afterwards — with the surviving context recording model 1 while
the model slot now holds model 2. -/
theorem c1_reload_frees_only_model :
    (nativeLoadModel stReadyA "/models/b.gguf" 4096 0 loaderTwo).2.2 = [Resource.model]
    ∧ (nativeLoadModel stReadyA "/models/b.gguf" 4096 0 loaderTwo).2.1.model = some ⟨2⟩
    ∧ (nativeLoadModel stReadyA "/models/b.gguf" 4096 0 loaderTwo).2.1.context = some ⟨1, 4096⟩
    ∧ (nativeLoadModel stReadyA "/models/b.gguf" 4096 0 loaderTwo).2.1.sampler = some ⟨[]⟩ := by
  decide

/-- C2: the claim says every read or mutation of the language-model
registry triple happens under `g_model_mutex`, so that `nativeFree` blocks
until an in-flight `nativeGenerate` completes. In the source,
`nativeGenerate` reads `g_context` and mutates `g_sampler` but never
acquires the mutex (there is no lock_guard in llm_bridge.cpp:249-303),
while `nativeFree` does acquire it — so the universal lock-coverage
property the claim asserts is false. -/
theorem c2_generate_runs_unlocked :
    touchesRegistry LlmOp.generate = true
    ∧ acquiresModelMutex LlmOp.generate = false
    ∧ acquiresModelMutex LlmOp.free = true
    ∧ ¬ (∀ op : LlmOp, touchesRegistry op = true → acquiresModelMutex op = true) := by
  refine ⟨rfl, rfl, rfl, fun h => ?_⟩
  exact absurd (h LlmOp.generate rfl) (by decide)

/-- C3: the claim says a live context always implies a live model of the
same kind that the context was created from (invariant b). Evaluating the
code on the failing input shows otherwise: from the Ready state of a
successful load, a `nativeLoadModel` on an unreadable path first frees the
model and then fails, leaving the model slot empty while the context
created from the freed model is still installed. -/
theorem c3_failed_reload_orphans_context :
    (nativeLoadModel stReadyA "/models/missing.gguf" 4096 0 loaderTwo).1 = -1
    ∧ (nativeLoadModel stReadyA "/models/missing.gguf" 4096 0 loaderTwo).2.1.model = none
    ∧ (nativeLoadModel stReadyA "/models/missing.gguf" 4096 0 loaderTwo).2.1.context
        = some ⟨1, 4096⟩ := by
  decide

/-- System-property environment whose SDK-version property holds a
non-empty, non-numeric string. -/
def propsMalformedSdk : String → String :=
  fun k => if k = "ro.build.version.sdk" then "abc" else ""

/-- C4: the claim says capability detection returns normally with a
conservative value for every state of the host signals, including malformed
property strings. Evaluating the code at the failing input shows otherwise:
`checkNNAPISupport` guards `std::stoi` only against the empty string, so a
malformed `ro.build.version.sdk` makes `std::stoi` throw (aborting the JNI
call); an absent (empty) property, by contrast, is handled conservatively,
and `detect_gpu_info` degrades to "Unknown GPU" on absent signals. -/
theorem c4_malformed_sdk_property_throws :
    checkNNAPISupport propsMalformedSdk = DetectOutcome.thrown
    ∧ checkNNAPISupport (fun _ => "") = DetectOutcome.ok false
    ∧ detect_gpu_info (fun _ => "") = "Unknown GPU" := by
  decide

/-- C5: `nativeFree` empties all three registry slots, performs its frees in
the order sampler, context, model restricted to the occupied slots, composes
with itself to a single free (the second free frees nothing and changes
nothing), and is a no-op on an already-empty registry. It never fails (it
returns no error at all). -/
theorem c5_free_teardown_and_idempotence (st : LlmState) :
    ((nativeFree st).1.model = none ∧ (nativeFree st).1.context = none
      ∧ (nativeFree st).1.sampler = none)
    ∧ (nativeFree st).2 = teardownOrder.filter (fun r => occupied st r)
    ∧ nativeFree (nativeFree st).1 = ((nativeFree st).1, [])
    ∧ (st.model = none → st.context = none → st.sampler = none →
        nativeFree st = (st, [])) := by
  obtain ⟨m, c, s, b⟩ := st
  cases m <;> cases c <;> cases s <;>
    simp [nativeFree, occupied, teardownOrder]

/-- Witness for C5 at a concrete empty registry: free of the empty state is
a no-op that frees nothing. -/
theorem c5_free_teardown_and_idempotence_witness :
    nativeFree ⟨none, none, none, true⟩ = (⟨none, none, none, true⟩, []) :=
  (c5_free_teardown_and_idempotence ⟨none, none, none, true⟩).2.2.2 rfl rfl rfl

/-- C6 counterexample: the claim says `init_context` fails exactly when the
model slot is empty, and succeeds whenever a model is loaded. At the concrete
input where a model is loaded but the underlying `llama_init_from_model`
call fails, `nativeInitContext` fails anyway, refuting the claim as
stated. -/
theorem c6_init_can_fail_with_model_loaded :
    (nativeInitContext ⟨some ⟨1⟩, none, none, true⟩ 4096 false).1 ≠ 0 := by
  decide

/-- C6 (amended): `init_context` fails with the not-loaded error when the
model slot is empty (leaving the state untouched); when a model is loaded
and the underlying context creation succeeds it returns 0, keeps the model,
and installs a context built from that model with the requested size
together with a fresh (empty) sampler chain, replacing any prior
context/sampler pair; when a model is loaded but the underlying context
creation fails it returns -1 with the context slot left empty and the model
kept. -/
theorem c6_init_context_amended (st : LlmState) (n : Nat) (ctxOk : Bool) :
    (st.model = none → nativeInitContext st n ctxOk = (-1, st, []))
    ∧ (∀ m, st.model = some m → ctxOk = true →
        (nativeInitContext st n ctxOk).1 = 0
        ∧ (nativeInitContext st n ctxOk).2.1.model = some m
        ∧ (nativeInitContext st n ctxOk).2.1.context = some ⟨m.id, n⟩
        ∧ (nativeInitContext st n ctxOk).2.1.sampler = some ⟨[]⟩)
    ∧ (∀ m, st.model = some m → ctxOk = false →
        (nativeInitContext st n ctxOk).1 = -1
        ∧ (nativeInitContext st n ctxOk).2.1.context = none
        ∧ (nativeInitContext st n ctxOk).2.1.model = some m) := by
  obtain ⟨mo, co, so, b⟩ := st
  cases mo <;> cases ctxOk <;> simp [nativeInitContext]

/-- Witness for C6 at a concrete loaded state: with context creation
succeeding, init returns 0 and installs the context built from model 1 with
the requested size. -/
theorem c6_init_context_amended_witness :
    (nativeInitContext ⟨some ⟨1⟩, none, none, true⟩ 4096 true).1 = 0
    ∧ (nativeInitContext ⟨some ⟨1⟩, none, none, true⟩ 4096 true).2.1.context
        = some ⟨1, 4096⟩ := by
  have h := (c6_init_context_amended ⟨some ⟨1⟩, none, none, true⟩ 4096 true).2.1 ⟨1⟩ rfl rfl
  exact ⟨h.1, h.2.2.1⟩

/-- C7: with a model loaded, if the true tokenization of the input exceeds
the caller-provided capacity, `nativeTokenize` returns the negated required
token count (so the caller can retry with a larger buffer) and copies no
truncated sequence out; otherwise it returns the full token sequence, whose
length is at most the capacity. -/
theorem c7_tokenize_buffer_contract (st : LlmState) (m : LlamaModel)
    (tok : String → List Int) (text : String) (cap : Nat)
    (hm : st.model = some m) :
    ((tok text).length > cap →
      (nativeTokenize st tok text cap).1 = -(((tok text).length : Nat) : Int)
      ∧ (nativeTokenize st tok text cap).2 = [])
    ∧ ((tok text).length ≤ cap →
      (nativeTokenize st tok text cap).1 = (((tok text).length : Nat) : Int)
      ∧ (nativeTokenize st tok text cap).2 = tok text
      ∧ (nativeTokenize st tok text cap).2.length ≤ cap) := by
  constructor
  · intro h
    have hneg : (-(((tok text).length : Nat) : Int)) < 0 := by
      have : 0 < (tok text).length := lt_of_le_of_lt (Nat.zero_le cap) h
      omega
    simp [nativeTokenize, llamaTokenize, hm, h, hneg]
  · intro h
    have hnot : ¬ (tok text).length > cap := Nat.not_lt.mpr h
    have hge : ¬ ((((tok text).length : Nat) : Int) < 0) := by omega
    simp [nativeTokenize, llamaTokenize, hm, hnot, hge, h]

/-- Witness for C7 at concrete inputs: a three-token tokenization against
capacity 2 fails carrying required count 3, and against capacity 8 returns
the full sequence. -/
theorem c7_tokenize_buffer_contract_witness :
    (nativeTokenize ⟨some ⟨1⟩, none, none, true⟩ (fun _ => [7, 8, 9]) "hi" 2).1 = -3
    ∧ (nativeTokenize ⟨some ⟨1⟩, none, none, true⟩ (fun _ => [7, 8, 9]) "hi" 8).2
        = [7, 8, 9] := by
  constructor
  · have h := (c7_tokenize_buffer_contract ⟨some ⟨1⟩, none, none, true⟩ ⟨1⟩
      (fun _ => [7, 8, 9]) "hi" 2 rfl).1 (by decide)
    simpa using h.1
  · have h := (c7_tokenize_buffer_contract ⟨some ⟨1⟩, none, none, true⟩ ⟨1⟩
      (fun _ => [7, 8, 9]) "hi" 8 rfl).2 (by decide)
    exact h.2.1

/-- C8: `nativeTranscribe` takes the not-loaded branch when no speech model
is loaded, and when the underlying `whisper_full` pass reports a nonzero
result it takes the error branch — for every segment list the pass may have
produced — returning the empty jstring, so no partial transcription text
reaches the caller. -/
theorem c8_transcribe_error_contract (st : WhisperState) (enableTs : Bool)
    (fullResult : Int) (segments : List WhisperSegment) (fmt : Int → Int → String) :
    (st.ctx = none →
      nativeTranscribe st enableTs fullResult segments fmt
        = TranscribeOutcome.noModelLoaded)
    ∧ (st.ctx ≠ none → fullResult ≠ 0 →
      nativeTranscribe st enableTs fullResult segments fmt
        = TranscribeOutcome.transcriptionError
      ∧ transcribeResultString (nativeTranscribe st enableTs fullResult segments fmt)
        = "") := by
  obtain ⟨c, l, i⟩ := st
  cases c with
  | none => exact ⟨fun _ => rfl, fun h _ => absurd rfl h⟩
  | some x =>
    refine ⟨fun h => Option.noConfusion h, fun _ h2 => ?_⟩
    simp [nativeTranscribe, transcribeResultString, h2]

/-- Witness for C8 at concrete inputs: transcription before load reports
not-loaded, and a failing pass with a nonempty segment list returns the
empty string. -/
theorem c8_transcribe_error_contract_witness :
    nativeTranscribe ⟨none, "en", false⟩ false (-1) [] (fun _ _ => "")
      = TranscribeOutcome.noModelLoaded
    ∧ transcribeResultString
        (nativeTranscribe ⟨some 0, "en", true⟩ true (-1) [⟨"partial text", 0, 100⟩]
          (fun _ _ => "[0.00 -> 1.00] "))
      = "" := by
  refine ⟨(c8_transcribe_error_contract ⟨none, "en", false⟩ false (-1) []
    (fun _ _ => "")).1 rfl, ?_⟩
  exact ((c8_transcribe_error_contract ⟨some 0, "en", true⟩ true (-1)
    [⟨"partial text", 0, 100⟩] (fun _ _ => "[0.00 -> 1.00] ")).2
    (by decide) (by decide)).2

/-- C9: with a context installed, a failing decode step makes
`nativeGenerate` return the decode-error code -2 without sampling (for
every sampling oracle, and without touching the sampler slot); a successful
decode samples through a freshly installed chain whose stages are, in
order, top-p filtering (with the caller's top_p and min_keep 1), then
temperature scaling, then the stochastic dist stage seeded with
LLAMA_DEFAULT_SEED (llama.cpp's draw from the process-wide random
source). -/
theorem c9_generate_chain_and_decode_error (st : LlmState) (ctx : LlamaContext)
    (tokens : List Int) (temperature topP : FVal)
    (sample : SamplerChain → LlamaContext → Int)
    (hc : st.context = some ctx) :
    (∀ s, nativeGenerate st tokens temperature topP false s = (-2, st, []))
    ∧ (nativeGenerate st tokens temperature topP true sample).1
        = sample ⟨[SamplerStage.topP topP 1, SamplerStage.temp temperature,
                   SamplerStage.dist LLAMA_DEFAULT_SEED]⟩ ctx
    ∧ (nativeGenerate st tokens temperature topP true sample).2.1.sampler
        = some ⟨[SamplerStage.topP topP 1, SamplerStage.temp temperature,
                 SamplerStage.dist LLAMA_DEFAULT_SEED]⟩ := by
  simp [nativeGenerate, hc]

/-- Witness for C9 at a concrete Ready state: the sampling oracle is handed
exactly the chain [top_p, temp, dist] (it answers 42 only on that chain),
and a failing decode returns -2. -/
theorem c9_generate_chain_and_decode_error_witness :
    (nativeGenerate ⟨some ⟨1⟩, some ⟨1, 8⟩, none, true⟩ [5] ⟨100⟩ ⟨200⟩ true
      (fun ch _ =>
        if ch.stages = [SamplerStage.topP ⟨200⟩ 1, SamplerStage.temp ⟨100⟩,
                        SamplerStage.dist LLAMA_DEFAULT_SEED] then 42 else 0)).1 = 42
    ∧ (nativeGenerate ⟨some ⟨1⟩, some ⟨1, 8⟩, none, true⟩ [5] ⟨100⟩ ⟨200⟩ false
        (fun _ _ => 0)).1 = -2 := by
  have h := c9_generate_chain_and_decode_error ⟨some ⟨1⟩, some ⟨1, 8⟩, none, true⟩
    ⟨1, 8⟩ [5] ⟨100⟩ ⟨200⟩
    (fun ch _ =>
      if ch.stages = [SamplerStage.topP ⟨200⟩ 1, SamplerStage.temp ⟨100⟩,
                      SamplerStage.dist LLAMA_DEFAULT_SEED] then 42 else 0) rfl
  refine ⟨?_, ?_⟩
  · rw [h.2.1]; decide
  · rw [h.1 (fun _ _ => 0)]

/-- C10: `nativeLoadModel` is not atomic with respect to failure: with a
model loaded, a load from a path the loader rejects returns -1, but the
previously loaded model has already been freed during the call (the freed
list names it) and the model slot is left empty; afterwards `init_context`
and `tokenize` fail with their not-loaded error -1 instead of using the old
model. -/
theorem c10_failed_reload_not_atomic (st : LlmState) (m : LlamaModel)
    (path : String) (cs gl : Int) (loader : String → Option LlamaModel)
    (tok : String → List Int) (text : String) (cap n : Nat) (ctxOk : Bool)
    (hm : st.model = some m) (hl : loader path = none) :
    (nativeLoadModel st path cs gl loader).1 = -1
    ∧ (nativeLoadModel st path cs gl loader).2.1.model = none
    ∧ (nativeLoadModel st path cs gl loader).2.2 = [Resource.model]
    ∧ (nativeInitContext (nativeLoadModel st path cs gl loader).2.1 n ctxOk).1 = -1
    ∧ (nativeTokenize (nativeLoadModel st path cs gl loader).2.1 tok text cap).1 = -1 := by
  simp [nativeLoadModel, nativeInitContext, nativeTokenize, hm, hl]

/-- Witness for C10 at a concrete loaded state and an always-failing
loader: the failed reload reports -1 and leaves the model slot empty. -/
theorem c10_failed_reload_not_atomic_witness :
    (nativeLoadModel ⟨some ⟨1⟩, none, none, true⟩ "/models/missing.gguf" 4096 0
      (fun _ => none)).1 = -1
    ∧ (nativeLoadModel ⟨some ⟨1⟩, none, none, true⟩ "/models/missing.gguf" 4096 0
        (fun _ => none)).2.1.model = none := by
  have h := c10_failed_reload_not_atomic ⟨some ⟨1⟩, none, none, true⟩ ⟨1⟩
    "/models/missing.gguf" 4096 0 (fun _ => none) (fun _ => []) "" 0 0 true rfl rfl
  exact ⟨h.1, h.2.1⟩
